import Mathlib

/- Verification of the revision-history and rollback core (pkg/history.go and
pkg/rollback.go): a shallow embedding of its data model and operations, with
theorems settling the stated behavioural properties.

External collaborators (the Kubernetes client libraries, the strategic merge
patch engine, the pod-template printer, the tabwriter, and the deployment
utility constants) are not part of the repository; they are modelled from the
specification at the interface this core consumes, and each such definition is
marked `Modelled from the spec`. Backend round-trips are passed in as explicit
values (reads) and recorded in an explicit call log (mutations), so that the
"issues no mutating call" properties are statable. -/

/-- A pod template: the unit of a workload that changes across revisions.
The model carries labels, annotations and containers (name/image pairs);
equality on it is the deep equality the source compares with. -/
structure PodTemplateSpec where
  Labels : List (String × String)
  Annotations : List (String × String)
  Containers : List (String × String)
deriving DecidableEq, Repr

/-- Modelled from the spec: the decoded content of a RevisionSnapshot's opaque
patch bytes (`ControllerRevision.Data.Raw`). A strategic merge patch either
supplies a replacement pod template for the workload or leaves it untouched;
the model records exactly that. -/
structure PatchData where
  template : Option PodTemplateSpec
deriving DecidableEq, Repr

/-- A ControllerRevision: an immutable, numbered snapshot of a workload's
historical state (appsv1beta1.ControllerRevision). -/
structure ControllerRevision where
  Name : String
  Revision : Int
  Data : PatchData
  Annotations : List (String × String)
deriving DecidableEq, Repr

/-- A DaemonSet workload, carrying the fields this core reads. -/
structure DaemonSet where
  Namespace : String
  Name : String
  SpecTemplate : PodTemplateSpec
deriving DecidableEq, Repr

/-- A StatefulSet workload, carrying the fields this core reads. -/
structure StatefulSet where
  Namespace : String
  Name : String
  SpecTemplate : PodTemplateSpec
deriving DecidableEq, Repr

/-- A Deployment workload, carrying the fields this core reads. -/
structure Deployment where
  Namespace : String
  Name : String
  Paused : Bool
deriving DecidableEq, Repr

/-- Modelled from the spec: a ReplicaSet child of a Deployment. Each child
carries its own revision number (`deploymentutil.Revision`, parsed from an
object annotation: `none` models a parse failure, which the source skips) and
its pod template, plus its own object annotations. -/
structure ReplicaSet where
  Revision : Option Int
  Template : PodTemplateSpec
  Annotations : List (String × String)
deriving DecidableEq, Repr

/-- Go map lookup over the association-list model of a map. -/
def lookupKV {κ α : Type} [DecidableEq κ] : List (κ × α) → κ → Option α
  | [], _ => none
  | p :: rest, k => if p.1 = k then some p.2 else lookupKV rest k

/-- Go map insertion (overwrite on an existing key) over the association-list
model of a map. -/
def insertKV {κ α : Type} [DecidableEq κ] : List (κ × α) → κ → α → List (κ × α)
  | [], k, v => [(k, v)]
  | p :: rest, k, v => if p.1 = k then (k, v) :: rest else p :: insertKV rest k v

/-- The change-cause annotation key (`kubernetes.io/change-cause`). -/
def ChangeCauseAnn : String := "kubernetes.io/change-cause"

/-- getChangeCause: the change-cause annotation of an object, or `""` when it
is absent. -/
def getChangeCause (ann : List (String × String)) : String :=
  (lookupKV ann ChangeCauseAnn).getD ""

/-- Modelled from the spec: `DescribePodTemplate`, the shared pod-template
renderer of the external printers package, as a concrete rendering of the
carried fields. -/
def describePodTemplate (t : PodTemplateSpec) : String :=
  "Pod Template:\n  Labels: " ++ String.join (t.Labels.map (fun p => p.1 ++ "=" ++ p.2 ++ " "))
    ++ "\n  Containers: " ++ String.join (t.Containers.map (fun p => p.1 ++ " image " ++ p.2 ++ " "))
    ++ "\n"

/-- The success message constant (`rollbackSuccess`). -/
def rollbackSuccess : String := "rolled back"

/-- The skip message constant (`rollbackSkipped`). -/
def rollbackSkipped : String := "skipped rollback"

/-- revisionNotFoundErr: the error text produced for an unknown revision. -/
def revisionNotFoundErr (r : Int) : String :=
  "unable to find specified revision " ++ toString r ++ " in history"

/-- The ordering `historiesByRevision` sorts with: ascending revision number. -/
def revLe (a b : ControllerRevision) : Prop := a.Revision ≤ b.Revision

instance : DecidableRel revLe := fun a b => inferInstanceAs (Decidable (a.Revision ≤ b.Revision))

instance : IsTotal ControllerRevision revLe := ⟨fun a b => Int.le_total a.Revision b.Revision⟩

instance : IsTrans ControllerRevision revLe := ⟨fun _ _ _ h1 h2 => le_trans h1 h2⟩

/-- `sort.Sort(historiesByRevision(allHistory))`: the history sorted ascending
by revision number. -/
def sortHistories (l : List ControllerRevision) : List ControllerRevision :=
  List.insertionSort revLe l

/-- findHistory: returns the controllerrevision of a specific revision from the
given controllerrevisions, `none` if no such controllerrevision exists; if
`toRevision` is 0, the last previously used history (second-highest revision)
is returned. -/
def findHistory (toRevision : Int) (allHistory : List ControllerRevision) :
    Option ControllerRevision :=
  if toRevision = 0 ∧ allHistory.length ≤ 1 then
    none
  else if toRevision = 0 then
    (sortHistories allHistory)[allHistory.length - 2]?
  else
    allHistory.find? (fun h => h.Revision == toRevision)

/-- DeepCopy of a DaemonSet: produces a value equal to its argument. -/
def deepCopyDS (ds : DaemonSet) : DaemonSet := ds

/-- Modelled from the spec: `json.Marshal` of a DaemonSet (external). The model
identifies a well-formed serialized document with the object it encodes, so
marshalling is the identity on the carried fields. -/
def jsonMarshalDS (ds : DaemonSet) : DaemonSet := ds

/-- Modelled from the spec: the external strategic merge patch, restricted to
the carried fields — a field present in the patch overwrites the base field,
an absent field leaves the base untouched. -/
def strategicMergePatchDS (base : DaemonSet) (patch : PatchData) : DaemonSet :=
  { base with SpecTemplate := patch.template.getD base.SpecTemplate }

/-- Modelled from the spec: `json.Unmarshal` back into the workload's native
shape (external); identity on the carried fields. -/
def jsonUnmarshalDS (doc : DaemonSet) : DaemonSet := doc

/-- applyDaemonSetHistory: returns a specific revision of a DaemonSet by
applying the given history's patch to a copy of the given DaemonSet
(clone, serialize, strategic-merge-patch, deserialize). -/
def applyDaemonSetHistory (ds : DaemonSet) (history : ControllerRevision) :
    Except String DaemonSet :=
  let clone := deepCopyDS ds
  let cloneBytes := jsonMarshalDS clone
  let patched := strategicMergePatchDS cloneBytes history.Data
  let result := jsonUnmarshalDS patched
  .ok result

/-- applyDaemonSetHistory together with the values the caller's two objects
hold after the call: every write in the source targets the private clone, so
the base DaemonSet and the snapshot are returned unchanged. -/
def applyDaemonSetHistoryTracked (ds : DaemonSet) (history : ControllerRevision) :
    (DaemonSet × ControllerRevision) × Except String DaemonSet :=
  ((ds, history), applyDaemonSetHistory ds history)

/-- The reconstructed DaemonSet, as a plain value (applyDaemonSetHistory always
succeeds on well-formed model values). -/
def appliedDaemonSet (ds : DaemonSet) (history : ControllerRevision) : DaemonSet :=
  { ds with SpecTemplate := history.Data.template.getD ds.SpecTemplate }

/-- Modelled from the spec: `statefulset.ApplyRevision` (external) — the same
clone-and-patch reconstruction for a StatefulSet. -/
def applyRevision (sts : StatefulSet) (history : ControllerRevision) : StatefulSet :=
  { sts with SpecTemplate := history.Data.template.getD sts.SpecTemplate }

/-- Modelled from the spec: `daemon.Match` (external) — whether the
reconstructed template equals the live template (deep equality). -/
def daemonMatch (ds : DaemonSet) (history : ControllerRevision) : Bool :=
  decide ((appliedDaemonSet ds history).SpecTemplate = ds.SpecTemplate)

/-- Modelled from the spec: `statefulset.Match` (external) — whether the
reconstructed template equals the live template (deep equality). -/
def stsMatch (sts : StatefulSet) (history : ControllerRevision) : Bool :=
  decide ((applyRevision sts history).SpecTemplate = sts.SpecTemplate)

/-- printPodTemplate: converts a pod template into a human-readable string
prefixed `will roll back to`. -/
def printPodTemplate (specTemplate : PodTemplateSpec) : Except String String :=
  .ok ("will roll back to " ++ describePodTemplate specTemplate)

/-- A mutating backend call issued by a rollback, recorded for the
frame/effect properties (reads are passed in as values, not recorded). -/
inductive BackendCall where
  | patchDaemonSet : String → String → PatchData → BackendCall
  | patchStatefulSet : String → String → PatchData → BackendCall
  | nativeRollback : String → String → Int → BackendCall
deriving DecidableEq, Repr

/-- The `no last revision to roll back to` error text. -/
def noLastRevisionErr : String := "no last revision to roll back to"

/-- DaemonSetRollbacker.Rollback. `fetch` is the outcome of
`daemonSetHistory` (the workload and its owned ControllerRevisions),
`patchRes` the outcome the backend would give the patch call; the second
component of the result is the log of mutating calls issued. -/
def daemonSetRollback (fetch : Except String (DaemonSet × List ControllerRevision))
    (toRevision : Int) (dryRun : Bool) (patchRes : Except String Unit) :
    Except String String × List BackendCall :=
  if toRevision < 0 then
    (.error (revisionNotFoundErr toRevision), [])
  else
    match fetch with
    | .error e => (.error e, [])
    | .ok (ds, history) =>
      if toRevision = 0 ∧ history.length ≤ 1 then
        (.error noLastRevisionErr, [])
      else
        match findHistory toRevision history with
        | none => (.error (revisionNotFoundErr toRevision), [])
        | some toHistory =>
          if dryRun then
            match applyDaemonSetHistory ds toHistory with
            | .error e => (.error e, [])
            | .ok appliedDS => (printPodTemplate appliedDS.SpecTemplate, [])
          else if daemonMatch ds toHistory then
            (.ok (rollbackSkipped ++ " (current template already matches revision "
              ++ toString toRevision ++ ")"), [])
          else
            match patchRes with
            | .error e =>
              (.error ("failed restoring revision " ++ toString toRevision ++ ": " ++ e),
                [BackendCall.patchDaemonSet ds.Namespace ds.Name toHistory.Data])
            | .ok _ =>
              (.ok rollbackSuccess,
                [BackendCall.patchDaemonSet ds.Namespace ds.Name toHistory.Data])

/-- StatefulSetRollbacker.Rollback. Same conventions as `daemonSetRollback`. -/
def statefulSetRollback (fetch : Except String (StatefulSet × List ControllerRevision))
    (toRevision : Int) (dryRun : Bool) (patchRes : Except String Unit) :
    Except String String × List BackendCall :=
  if toRevision < 0 then
    (.error (revisionNotFoundErr toRevision), [])
  else
    match fetch with
    | .error e => (.error e, [])
    | .ok (sts, history) =>
      if toRevision = 0 ∧ history.length ≤ 1 then
        (.error noLastRevisionErr, [])
      else
        match findHistory toRevision history with
        | none => (.error (revisionNotFoundErr toRevision), [])
        | some toHistory =>
          if dryRun then
            (printPodTemplate (applyRevision sts toHistory).SpecTemplate, [])
          else if stsMatch sts toHistory then
            (.ok (rollbackSkipped ++ " (current template already matches revision "
              ++ toString toRevision ++ ")"), [])
          else
            match patchRes with
            | .error e =>
              (.error ("failed restoring revision " ++ toString toRevision ++ ": " ++ e),
                [BackendCall.patchStatefulSet sts.Namespace sts.Name toHistory.Data])
            | .ok _ =>
              (.ok rollbackSuccess,
                [BackendCall.patchStatefulSet sts.Namespace sts.Name toHistory.Data])

/-- Modelled from the spec: `deploymentutil.RollbackDone` — the backend-defined
sentinel reason for a completed native rollback (the constant lives outside the
repository; the spec names it "rollback done"). -/
def RollbackDone : String := "rollback done"

/-- Modelled from the spec: `deploymentutil.RollbackRevisionNotFound` sentinel
reason ("revision not found"). -/
def RollbackRevisionNotFound : String := "revision not found"

/-- Modelled from the spec: `deploymentutil.RollbackTemplateUnchanged` sentinel
reason ("template unchanged"). -/
def RollbackTemplateUnchanged : String := "template unchanged"

/-- The fixed list of rollback event reasons checked by `isRollbackEvent`,
in the order the source lists them. -/
def rollbackEventReasons : List String :=
  [RollbackRevisionNotFound, RollbackTemplateUnchanged, RollbackDone]

/-- A backend event as consumed by the completion watcher (api.Event): a
reason string and a message. -/
structure ApiEvent where
  Reason : String
  Message : String
deriving DecidableEq, Repr

/-- The loop body of `isRollbackEvent`: scan the fixed reason list for a match
against the event's reason. -/
def isRollbackEventLoop (e : ApiEvent) : List String → Bool × String
  | [] => (false, "")
  | reason :: rest =>
    if e.Reason = reason then
      if reason = RollbackDone then
        (true, rollbackSuccess)
      else
        (true, rollbackSkipped ++ " (" ++ e.Reason ++ ": " ++ e.Message ++ ")")
    else
      isRollbackEventLoop e rest

/-- isRollbackEvent: checks whether the input event is about rollback, and if
so returns the related result string. -/
def isRollbackEvent (e : ApiEvent) : Bool × String :=
  isRollbackEventLoop e rollbackEventReasons

/-- One delivery of the event watch stream: either a well-typed api.Event or
an object of some other type. A stream is the (finite) sequence of deliveries
before the channel closes. -/
inductive WatchItem where
  | apiEvent : ApiEvent → WatchItem
  | otherObject : WatchItem
deriving DecidableEq, Repr

/-- watchRollbackEvent: consumes the event stream; a closed channel yields "",
an object that is not an api.Event stops the watch and yields "", the first
event `isRollbackEvent` classifies stops the watch and yields its result, and
every other event is skipped. -/
def watchRollbackEvent : List WatchItem → String
  | [] => ""
  | WatchItem.otherObject :: _ => ""
  | WatchItem.apiEvent e :: rest =>
    match isRollbackEvent e with
    | (true, result) => result
    | (false, _) => watchRollbackEvent rest

/-- `sliceutil.SortInts64`: sort a list of revision numbers ascending. -/
def sortInts (l : List Int) : List Int :=
  List.insertionSort (fun a b => a ≤ b) l

/-- Modelled from the spec: Go's text/tabwriter column alignment, of which the
verified properties only evaluate tab-free single-column text — which the
tabwriter passes through unchanged (a cell not terminated by a tab belongs to
no aligned column and receives no padding). -/
def tabwriterRender (s : String) : String := s

/-- tabbedString: render the written text through a tabwriter. -/
def tabbedString (s : String) : String := tabwriterRender s

/-- The paused-deployment rejection message. -/
def pausedDeploymentMsg (name : String) : String :=
  "you cannot rollback a paused deployment; resume it first with 'kubectl rollout resume deployment/"
    ++ name ++ "' and try again"

/-- The revision-to-template map simpleDryRun builds from the deployment's
replica sets, skipping children whose revision annotation does not parse
(Go map: insertion overwrites an existing revision key). -/
def revisionToSpecOf (rss : List ReplicaSet) : List (Int × PodTemplateSpec) :=
  rss.foldl
    (fun m rs =>
      match rs.Revision with
      | none => m
      | some v => insertKV m v rs.Template)
    []

/-- The Go zero value of a pod template, produced by an (impossible) missing
map lookup. -/
def emptyTemplate : PodTemplateSpec := ⟨[], [], []⟩

/-- simpleDryRun: render the template the deployment would roll back to.
`rsFetch` is the outcome of `deploymentutil.GetAllReplicaSets` (old replica
sets followed by the new one, when present). -/
def simpleDryRun (d : Deployment) (rsFetch : Except String (List ReplicaSet))
    (toRevision : Int) : Except String String :=
  match rsFetch with
  | .error e =>
    .error ("failed to retrieve replica sets from deployment " ++ d.Name ++ ": " ++ e)
  | .ok rss =>
    let revisionToSpec := revisionToSpecOf rss
    if revisionToSpec.length < 2 then
      .error ("no rollout history found for deployment \"" ++ d.Name ++ "\"")
    else if toRevision > 0 then
      match lookupKV revisionToSpec toRevision with
      | none => .error (revisionNotFoundErr toRevision)
      | some template => .ok (describePodTemplate template)
    else
      let revisions := sortInts (revisionToSpec.map Prod.fst)
      let template := (lookupKV revisionToSpec (revisions.getD (revisions.length - 2) 0)).getD emptyTemplate
      .ok ("\n" ++ describePodTemplate template)

/-- DeploymentRollbacker.Rollback. Reads are passed in as the values the
backend would return (`rsFetch` for the dry-run's replica sets, `eventsRes`
for the initial events list, `watchRes` for the opened stream); `rollbackRes`
is the outcome of the native rollback submission, the one mutating call,
which the call log records. -/
def deploymentRollback (d : Deployment) (toRevision : Int) (dryRun : Bool)
    (rsFetch : Except String (List ReplicaSet))
    (eventsRes : Except String Unit)
    (rollbackRes : Except String Unit)
    (watchRes : Except String (List WatchItem)) :
    Except String String × List BackendCall :=
  if dryRun then
    (simpleDryRun d rsFetch toRevision, [])
  else if d.Paused then
    (.error (pausedDeploymentMsg d.Name), [])
  else
    match eventsRes with
    | .error e => (.error e, [])
    | .ok _ =>
      match rollbackRes with
      | .error e => (.error e, [BackendCall.nativeRollback d.Namespace d.Name toRevision])
      | .ok _ =>
        match watchRes with
        | .error e => (.error e, [BackendCall.nativeRollback d.Namespace d.Name toRevision])
        | .ok stream =>
          (.ok (watchRollbackEvent stream),
            [BackendCall.nativeRollback d.Namespace d.Name toRevision])

/-- printTemplate: render a pod template (no prefix). -/
def printTemplate (template : PodTemplateSpec) : Except String String :=
  .ok (describePodTemplate template)

/-- The revision-to-template map DeploymentHistoryViewer builds, copying the
replica set's change-cause annotation onto the stored template's annotations
when it is non-empty. -/
def deploymentHistoryInfo (rss : List ReplicaSet) : List (Int × PodTemplateSpec) :=
  rss.foldl
    (fun m rs =>
      match rs.Revision with
      | none => m
      | some v =>
        let changeCause := getChangeCause rs.Annotations
        let t := rs.Template
        let t := if changeCause.length > 0 then
            { t with Annotations := insertKV t.Annotations ChangeCauseAnn changeCause }
          else t
        insertKV m v t)
    []

/-- DeploymentHistoryViewer.ViewHistory. `getRes` is the outcome of fetching
the deployment, `rsFetch` that of listing its replica sets. -/
def deploymentViewHistory (name : String) (getRes : Except String Deployment)
    (rsFetch : Except String (List ReplicaSet)) (revision : Int) :
    Except String String :=
  match getRes with
  | .error e => .error ("failed to retrieve deployment " ++ name ++ ": " ++ e)
  | .ok _ =>
    match rsFetch with
    | .error e => .error ("failed to retrieve replica sets from deployment " ++ name ++ ": " ++ e)
    | .ok rss =>
      let historyInfo := deploymentHistoryInfo rss
      if historyInfo.length = 0 then
        .ok "No rollout history found."
      else if revision > 0 then
        match lookupKV historyInfo revision with
        | none => .error "unable to find the specified revision"
        | some template => printTemplate template
      else
        let revisions := sortInts (historyInfo.map Prod.fst)
        .ok (tabbedString ("REVISION\tCHANGE-CAUSE\n" ++ String.join (revisions.map (fun r =>
          let changeCause := (lookupKV historyInfo r).getD emptyTemplate |>.Annotations
            |> (fun a => (lookupKV a ChangeCauseAnn).getD "")
          toString r ++ "\t" ++ (if changeCause.length = 0 then "<none>" else changeCause) ++ "\n"))))

/-- The Go zero value of a ControllerRevision, produced by an (impossible)
missing map lookup. -/
def emptyCR : ControllerRevision := ⟨"", 0, ⟨none⟩, []⟩

/-- DaemonSetHistoryViewer.ViewHistory. `fetch` is the outcome of
`daemonSetHistory`. -/
def daemonSetViewHistory (fetch : Except String (DaemonSet × List ControllerRevision))
    (revision : Int) : Except String String :=
  match fetch with
  | .error e => .error e
  | .ok (ds, history) =>
    let historyInfo := history.foldl (fun m h => insertKV m h.Revision h)
      ([] : List (Int × ControllerRevision))
    if historyInfo.length = 0 then
      .ok "No rollout history found."
    else if revision > 0 then
      match lookupKV historyInfo revision with
      | none => .error "unable to find the specified revision"
      | some h =>
        match applyDaemonSetHistory ds h with
        | .error _ => .error ("unable to parse history " ++ h.Name)
        | .ok dsOfHistory => printTemplate dsOfHistory.SpecTemplate
    else
      let revisions := sortInts (historyInfo.map Prod.fst)
      .ok (tabbedString ("REVISION\tCHANGE-CAUSE\n" ++ String.join (revisions.map (fun r =>
        let changeCause := getChangeCause ((lookupKV historyInfo r).getD emptyCR).Annotations
        toString r ++ "\t" ++ (if changeCause.length = 0 then "<none>" else changeCause) ++ "\n"))))

/-- StatefulSetHistoryViewer.ViewHistory. `fetch` is the outcome of
`statefulSetHistory` (only the history list is consumed). Faithful to the
source, the revisions slice is created with `make([]int64, len(history))` —
length `len(history)`, all zeros — and the actual revision numbers are then
appended after those zeros. -/
def stsViewHistory (fetch : Except String (List ControllerRevision))
    (revision : Int) : Except String String :=
  match fetch with
  | .error e => .error e
  | .ok history =>
    if history.length ≤ 0 then
      .ok "No rollout history found."
    else
      let revisions := List.replicate history.length 0
        ++ history.map ControllerRevision.Revision
      let sorted := sortInts revisions
      .ok (tabbedString ("REVISION\n" ++ String.join (sorted.map (fun r => toString r ++ "\n"))))

/- Demonstration values used by witnesses and counterexamples. -/

/-- A concrete pod template. -/
def demoTemplateA : PodTemplateSpec := ⟨[("app", "web")], [], [("main", "img:1")]⟩

/-- A second concrete pod template, different from `demoTemplateA`. -/
def demoTemplateB : PodTemplateSpec := ⟨[("app", "web")], [], [("main", "img:2")]⟩

/-- A three-snapshot history with revisions 1, 3, 2 (unsorted on purpose). -/
def demoHistory : List ControllerRevision :=
  [⟨"web-1", 1, ⟨some demoTemplateA⟩, []⟩,
   ⟨"web-3", 3, ⟨none⟩, []⟩,
   ⟨"web-2", 2, ⟨some demoTemplateB⟩, []⟩]

/-- A single-snapshot history (revision 5). -/
def demoHistoryOne : List ControllerRevision := [⟨"web-5", 5, ⟨none⟩, []⟩]

/-- A concrete DaemonSet whose live template is `demoTemplateA`. -/
def demoDS : DaemonSet := ⟨"default", "fluentd", demoTemplateA⟩

/-- A concrete StatefulSet whose live template is `demoTemplateA`. -/
def demoSTS : StatefulSet := ⟨"default", "db", demoTemplateA⟩

/-- A concrete paused Deployment. -/
def demoPausedDeployment : Deployment := ⟨"default", "web", true⟩

/-- Two replica-set children of the demo deployment, revisions 1 and 2. -/
def demoReplicaSets : List ReplicaSet :=
  [⟨some 1, demoTemplateA, []⟩, ⟨some 2, demoTemplateB, []⟩]

/-- A two-snapshot history whose lower revision reconstructs to the live
template `demoTemplateA`. -/
def demoMatchingHistory : List ControllerRevision :=
  [⟨"web-1", 1, ⟨some demoTemplateA⟩, []⟩, ⟨"web-2", 2, ⟨some demoTemplateB⟩, []⟩]

/-- A backend event with the completion sentinel reason. -/
def demoDoneEvent : ApiEvent := ⟨RollbackDone, "deployment rolled back"⟩

/-- A backend event with the template-unchanged sentinel reason. -/
def demoUnchangedEvent : ApiEvent := ⟨RollbackTemplateUnchanged, "the rollback was skipped"⟩

/-- A backend event with a non-sentinel reason. -/
def demoOtherEvent : ApiEvent := ⟨"ScalingReplicaSet", "scaled up"⟩

/-- C1: with at least two snapshots of pairwise-distinct revision numbers
(the data model's uniqueness invariant), `findHistory` at the sentinel target
0 returns a snapshot of the history whose revision is strictly below some
member's revision (never the largest) and at least every non-maximal member's
revision (the second-largest). -/
theorem findHistory_zero_second_largest
    (l : List ControllerRevision) (h2 : 2 ≤ l.length)
    (hnd : (l.map ControllerRevision.Revision).Nodup) :
    ∃ h m, findHistory 0 l = some h ∧ h ∈ l ∧ m ∈ l ∧
      h.Revision < m.Revision ∧
      (∀ g ∈ l, g.Revision ≤ m.Revision) ∧
      (∀ g ∈ l, g.Revision ≠ m.Revision → g.Revision ≤ h.Revision) := by
  classical
  have hperm : (sortHistories l).Perm l := List.perm_insertionSort revLe l
  have hlen : (sortHistories l).length = l.length := hperm.length_eq
  have hsorted : List.Sorted revLe (sortHistories l) := List.sorted_insertionSort revLe l
  have hn2 : l.length - 2 < (sortHistories l).length := by omega
  have hn1 : l.length - 1 < (sortHistories l).length := by omega
  have hmono : ∀ (i j : ℕ) (hi : i < (sortHistories l).length)
      (hj : j < (sortHistories l).length), i < j →
      (sortHistories l)[i].Revision ≤ (sortHistories l)[j].Revision := by
    intro i j hi hj hij
    exact List.pairwise_iff_getElem.mp hsorted i j hi hj hij
  have hnds : ((sortHistories l).map ControllerRevision.Revision).Nodup :=
    ((hperm.map ControllerRevision.Revision).nodup_iff).mpr hnd
  have hne : (sortHistories l)[l.length - 2].Revision
      ≠ (sortHistories l)[l.length - 1].Revision := by
    have hp := List.pairwise_iff_getElem.mp hnds (l.length - 2) (l.length - 1)
      (by simpa using hn2) (by simpa using hn1) (by omega)
    simpa using hp
  refine ⟨(sortHistories l)[l.length - 2], (sortHistories l)[l.length - 1],
    ?_, ?_, ?_, ?_, ?_, ?_⟩
  · unfold findHistory
    rw [if_neg (by omega), if_pos rfl]
    exact List.getElem?_eq_getElem hn2
  · exact hperm.subset (List.getElem_mem hn2)
  · exact hperm.subset (List.getElem_mem hn1)
  · exact lt_of_le_of_ne (hmono _ _ hn2 hn1 (by omega)) hne
  · intro g hg
    obtain ⟨i, hi, hgi⟩ := List.mem_iff_getElem.mp (hperm.mem_iff.mpr hg)
    by_cases hcase : i = l.length - 1
    · subst hcase; rw [← hgi]
    · rw [← hgi]; exact hmono _ _ hi hn1 (by omega)
  · intro g hg hgne
    obtain ⟨i, hi, hgi⟩ := List.mem_iff_getElem.mp (hperm.mem_iff.mpr hg)
    have hine : i ≠ l.length - 1 := by
      intro hcontra; subst hcontra; exact hgne (by rw [← hgi])
    by_cases hcase : i = l.length - 2
    · subst hcase; rw [← hgi]
    · rw [← hgi]; exact hmono _ _ hi hn2 (by omega)

/-- C1 witness: on the concrete history with revisions 1, 3, 2 the hypotheses
hold and the theorem applies. -/
theorem findHistory_zero_second_largest_witness :
    2 ≤ demoHistory.length ∧ (demoHistory.map ControllerRevision.Revision).Nodup ∧
    (∃ h m, findHistory 0 demoHistory = some h ∧ h ∈ demoHistory ∧ m ∈ demoHistory ∧
      h.Revision < m.Revision ∧
      (∀ g ∈ demoHistory, g.Revision ≤ m.Revision) ∧
      (∀ g ∈ demoHistory, g.Revision ≠ m.Revision → g.Revision ≤ h.Revision)) :=
  ⟨by decide, by decide,
    findHistory_zero_second_largest demoHistory (by decide) (by decide)⟩

/-- C2: with at most one snapshot in the fetched history, both
client-reconstructed rollbacks at sentinel target 0 fail with the
insufficient-history error and issue no mutating call. -/
theorem rollback_insufficient_history
    (ds : DaemonSet) (dsHistory : List ControllerRevision)
    (sts : StatefulSet) (stsHistory : List ControllerRevision)
    (dryRun : Bool) (pr1 pr2 : Except String Unit)
    (hds : dsHistory.length ≤ 1) (hsts : stsHistory.length ≤ 1) :
    daemonSetRollback (.ok (ds, dsHistory)) 0 dryRun pr1
      = (.error noLastRevisionErr, []) ∧
    statefulSetRollback (.ok (sts, stsHistory)) 0 dryRun pr2
      = (.error noLastRevisionErr, []) := by
  constructor
  · simp [daemonSetRollback, hds]
  · simp [statefulSetRollback, hsts]

/-- C2 witness: a one-snapshot history at target 0. -/
theorem rollback_insufficient_history_witness :
    demoHistoryOne.length ≤ 1 ∧
    daemonSetRollback (.ok (demoDS, demoHistoryOne)) 0 false (.ok ())
      = (.error noLastRevisionErr, []) ∧
    statefulSetRollback (.ok (demoSTS, demoHistoryOne)) 0 false (.ok ())
      = (.error noLastRevisionErr, []) :=
  ⟨by decide,
    rollback_insufficient_history demoDS demoHistoryOne demoSTS demoHistoryOne
      false (.ok ()) (.ok ()) (by decide) (by decide)⟩

/-- `findHistory` at a positive target absent from the history returns none. -/
theorem findHistory_pos_not_present (toRevision : Int)
    (history : List ControllerRevision) (hpos : 0 < toRevision)
    (habs : ∀ h ∈ history, h.Revision ≠ toRevision) :
    findHistory toRevision history = none := by
  unfold findHistory
  rw [if_neg (by omega), if_neg (by omega)]
  exact List.find?_eq_none.mpr (fun x hx => by simpa using habs x hx)

/-- C3: a negative target, or a positive target whose revision is absent from
the history, makes both client-reconstructed rollbacks fail with the
revision-not-found error and issue no mutating call, for histories of any
size. -/
theorem rollback_revision_not_found
    (fetch1 : Except String (DaemonSet × List ControllerRevision))
    (fetch2 : Except String (StatefulSet × List ControllerRevision))
    (ds : DaemonSet) (sts : StatefulSet)
    (dsHistory stsHistory : List ControllerRevision)
    (toRevision : Int) (dryRun : Bool) (pr1 pr2 : Except String Unit) :
    (toRevision < 0 →
      daemonSetRollback fetch1 toRevision dryRun pr1
        = (.error (revisionNotFoundErr toRevision), []) ∧
      statefulSetRollback fetch2 toRevision dryRun pr2
        = (.error (revisionNotFoundErr toRevision), [])) ∧
    (0 < toRevision → (∀ h ∈ dsHistory, h.Revision ≠ toRevision) →
      daemonSetRollback (.ok (ds, dsHistory)) toRevision dryRun pr1
        = (.error (revisionNotFoundErr toRevision), [])) ∧
    (0 < toRevision → (∀ h ∈ stsHistory, h.Revision ≠ toRevision) →
      statefulSetRollback (.ok (sts, stsHistory)) toRevision dryRun pr2
        = (.error (revisionNotFoundErr toRevision), [])) := by
  refine ⟨fun hneg => ?_, fun hpos habs => ?_, fun hpos habs => ?_⟩
  · constructor
    · simp [daemonSetRollback, hneg]
    · simp [statefulSetRollback, hneg]
  · have hc1 : ¬ toRevision < 0 := by omega
    have hc2 : ¬ (toRevision = 0 ∧ dsHistory.length ≤ 1) := by omega
    have hc3 : toRevision ≠ 0 := by omega
    simp [daemonSetRollback, findHistory_pos_not_present toRevision dsHistory hpos habs,
      hc1, hc2, hc3]
  · have hc1 : ¬ toRevision < 0 := by omega
    have hc2 : ¬ (toRevision = 0 ∧ stsHistory.length ≤ 1) := by omega
    have hc3 : toRevision ≠ 0 := by omega
    simp [statefulSetRollback, findHistory_pos_not_present toRevision stsHistory hpos habs,
      hc1, hc2, hc3]

/-- C3 witness: target −1 and target 7 against the three-snapshot history with
revisions 1, 3, 2. -/
theorem rollback_revision_not_found_witness :
    ((-1 : Int) < 0 ∧
      daemonSetRollback (.ok (demoDS, demoHistory)) (-1) false (.ok ())
        = (.error (revisionNotFoundErr (-1)), []) ∧
      statefulSetRollback (.ok (demoSTS, demoHistory)) (-1) false (.ok ())
        = (.error (revisionNotFoundErr (-1)), [])) ∧
    ((0 : Int) < 7 ∧
      daemonSetRollback (.ok (demoDS, demoHistory)) 7 false (.ok ())
        = (.error (revisionNotFoundErr 7), [])) :=
  ⟨⟨by decide,
    (rollback_revision_not_found (.ok (demoDS, demoHistory)) (.ok (demoSTS, demoHistory))
      demoDS demoSTS demoHistory demoHistory (-1) false (.ok ()) (.ok ())).1 (by decide)⟩,
   ⟨by decide,
    (rollback_revision_not_found (.ok (demoDS, demoHistory)) (.ok (demoSTS, demoHistory))
      demoDS demoSTS demoHistory demoHistory 7 false (.ok ()) (.ok ())).2.1
      (by decide) (by decide)⟩⟩

/-- C4: reconstruction is effect-free and reproducible — the caller's base
workload and snapshot hold their original values after the call (every write
in the source targets the private deep copy), applying the snapshot to a
fresh clone gives the same result as applying it to the base, and a second
application against the (unchanged) post-call base reproduces the first
result. -/
theorem applyDaemonSetHistory_pure (ds : DaemonSet) (history : ControllerRevision) :
    (applyDaemonSetHistoryTracked ds history).1 = (ds, history) ∧
    applyDaemonSetHistory (deepCopyDS ds) history = applyDaemonSetHistory ds history ∧
    applyDaemonSetHistory (applyDaemonSetHistoryTracked ds history).1.1 history
      = applyDaemonSetHistory ds history :=
  ⟨rfl, rfl, rfl⟩

/-- C5: when the reconstructed template equals the live template, a non-dry-run
client-reconstructed rollback of a resolvable target returns the skip message
and issues no mutating call. -/
theorem rollback_skipped_when_template_matches
    (ds : DaemonSet) (sts : StatefulSet)
    (dsHistory stsHistory : List ControllerRevision)
    (toRevision : Int) (h1 h2 : ControllerRevision) (pr1 pr2 : Except String Unit)
    (hnneg : 0 ≤ toRevision)
    (hsize1 : ¬(toRevision = 0 ∧ dsHistory.length ≤ 1))
    (hsize2 : ¬(toRevision = 0 ∧ stsHistory.length ≤ 1))
    (hfind1 : findHistory toRevision dsHistory = some h1)
    (hfind2 : findHistory toRevision stsHistory = some h2)
    (heq1 : (appliedDaemonSet ds h1).SpecTemplate = ds.SpecTemplate)
    (heq2 : (applyRevision sts h2).SpecTemplate = sts.SpecTemplate) :
    daemonSetRollback (.ok (ds, dsHistory)) toRevision false pr1
      = (.ok (rollbackSkipped ++ " (current template already matches revision "
          ++ toString toRevision ++ ")"), []) ∧
    statefulSetRollback (.ok (sts, stsHistory)) toRevision false pr2
      = (.ok (rollbackSkipped ++ " (current template already matches revision "
          ++ toString toRevision ++ ")"), []) := by
  have hc1 : ¬ toRevision < 0 := by omega
  constructor
  · simp [daemonSetRollback, hc1, hsize1, hfind1, daemonMatch, heq1]
  · simp [statefulSetRollback, hc1, hsize2, hfind2, stsMatch, heq2]

/-- C5 witness: target 0 over the two-snapshot history whose previous revision
reconstructs to the live template. -/
theorem rollback_skipped_when_template_matches_witness :
    findHistory 0 demoMatchingHistory = some ⟨"web-1", 1, ⟨some demoTemplateA⟩, []⟩ ∧
    (appliedDaemonSet demoDS ⟨"web-1", 1, ⟨some demoTemplateA⟩, []⟩).SpecTemplate
      = demoDS.SpecTemplate ∧
    daemonSetRollback (.ok (demoDS, demoMatchingHistory)) 0 false (.ok ())
      = (.ok (rollbackSkipped ++ " (current template already matches revision "
          ++ toString (0 : Int) ++ ")"), []) ∧
    statefulSetRollback (.ok (demoSTS, demoMatchingHistory)) 0 false (.ok ())
      = (.ok (rollbackSkipped ++ " (current template already matches revision "
          ++ toString (0 : Int) ++ ")"), []) :=
  ⟨by decide, by decide,
    (rollback_skipped_when_template_matches demoDS demoSTS demoMatchingHistory
      demoMatchingHistory 0 ⟨"web-1", 1, ⟨some demoTemplateA⟩, []⟩
      ⟨"web-1", 1, ⟨some demoTemplateA⟩, []⟩ (.ok ()) (.ok ())
      (by decide) (by decide) (by decide) (by decide) (by decide)
      (by decide) (by decide)).1,
   (rollback_skipped_when_template_matches demoDS demoSTS demoMatchingHistory
      demoMatchingHistory 0 ⟨"web-1", 1, ⟨some demoTemplateA⟩, []⟩
      ⟨"web-1", 1, ⟨some demoTemplateA⟩, []⟩ (.ok ()) (.ok ())
      (by decide) (by decide) (by decide) (by decide) (by decide)
      (by decide) (by decide)).2⟩

/-- C6: with dry-run on and a resolvable target, both client-reconstructed
rollbacks return the reconstructed pod template rendered with the
`will roll back to` prefix and issue no mutating call, and the server-assisted
rollback issues no mutating call either. -/
theorem dryrun_issues_no_mutation
    (ds : DaemonSet) (sts : StatefulSet)
    (dsHistory stsHistory : List ControllerRevision)
    (toRevision : Int) (h1 h2 : ControllerRevision) (pr1 pr2 : Except String Unit)
    (d : Deployment) (rsFetch : Except String (List ReplicaSet))
    (eventsRes rollbackRes : Except String Unit)
    (watchRes : Except String (List WatchItem))
    (hnneg : 0 ≤ toRevision)
    (hsize1 : ¬(toRevision = 0 ∧ dsHistory.length ≤ 1))
    (hsize2 : ¬(toRevision = 0 ∧ stsHistory.length ≤ 1))
    (hfind1 : findHistory toRevision dsHistory = some h1)
    (hfind2 : findHistory toRevision stsHistory = some h2) :
    daemonSetRollback (.ok (ds, dsHistory)) toRevision true pr1
      = (.ok ("will roll back to "
          ++ describePodTemplate (appliedDaemonSet ds h1).SpecTemplate), []) ∧
    statefulSetRollback (.ok (sts, stsHistory)) toRevision true pr2
      = (.ok ("will roll back to "
          ++ describePodTemplate (applyRevision sts h2).SpecTemplate), []) ∧
    (deploymentRollback d toRevision true rsFetch eventsRes rollbackRes watchRes).2 = [] := by
  have hc1 : ¬ toRevision < 0 := by omega
  refine ⟨?_, ?_, ?_⟩
  · simp [daemonSetRollback, hc1, hsize1, hfind1, applyDaemonSetHistory, deepCopyDS,
      jsonMarshalDS, strategicMergePatchDS, jsonUnmarshalDS, printPodTemplate,
      appliedDaemonSet]
  · simp [statefulSetRollback, hc1, hsize2, hfind2, printPodTemplate]
  · simp [deploymentRollback]

/-- C6 witness: dry-run at target 0 over the three-snapshot history. -/
theorem dryrun_issues_no_mutation_witness :
    (0 : Int) ≤ 0 ∧ ¬((0 : Int) = 0 ∧ demoHistory.length ≤ 1) ∧
    findHistory 0 demoHistory = some ⟨"web-2", 2, ⟨some demoTemplateB⟩, []⟩ ∧
    daemonSetRollback (.ok (demoDS, demoHistory)) 0 true (.ok ())
      = (.ok ("will roll back to " ++ describePodTemplate
          (appliedDaemonSet demoDS ⟨"web-2", 2, ⟨some demoTemplateB⟩, []⟩).SpecTemplate), []) ∧
    statefulSetRollback (.ok (demoSTS, demoHistory)) 0 true (.ok ())
      = (.ok ("will roll back to " ++ describePodTemplate
          (applyRevision demoSTS ⟨"web-2", 2, ⟨some demoTemplateB⟩, []⟩).SpecTemplate), []) ∧
    (deploymentRollback demoPausedDeployment 0 true (.ok demoReplicaSets)
      (.ok ()) (.ok ()) (.ok [])).2 = [] :=
  ⟨by decide, by decide, by decide,
    (dryrun_issues_no_mutation demoDS demoSTS demoHistory demoHistory 0
      ⟨"web-2", 2, ⟨some demoTemplateB⟩, []⟩ ⟨"web-2", 2, ⟨some demoTemplateB⟩, []⟩
      (.ok ()) (.ok ()) demoPausedDeployment (.ok demoReplicaSets) (.ok ()) (.ok ())
      (.ok []) (by decide) (by decide) (by decide) (by decide) (by decide)).1,
    (dryrun_issues_no_mutation demoDS demoSTS demoHistory demoHistory 0
      ⟨"web-2", 2, ⟨some demoTemplateB⟩, []⟩ ⟨"web-2", 2, ⟨some demoTemplateB⟩, []⟩
      (.ok ()) (.ok ()) demoPausedDeployment (.ok demoReplicaSets) (.ok ()) (.ok ())
      (.ok []) (by decide) (by decide) (by decide) (by decide) (by decide)).2.1,
    (dryrun_issues_no_mutation demoDS demoSTS demoHistory demoHistory 0
      ⟨"web-2", 2, ⟨some demoTemplateB⟩, []⟩ ⟨"web-2", 2, ⟨some demoTemplateB⟩, []⟩
      (.ok ()) (.ok ()) demoPausedDeployment (.ok demoReplicaSets) (.ok ()) (.ok ())
      (.ok []) (by decide) (by decide) (by decide) (by decide) (by decide)).2.2⟩

/-- C7 counterexample: a dry-run invocation on a paused deployment is not
rejected with the paused-workload error — the paused check runs only after
the dry-run branch, so the call renders the requested revision instead. -/
theorem deployment_paused_dryrun_not_rejected :
    deploymentRollback demoPausedDeployment 2 true (.ok demoReplicaSets)
        (.ok ()) (.ok ()) (.ok [])
      = (.ok (describePodTemplate demoTemplateB), []) ∧
    (deploymentRollback demoPausedDeployment 2 true (.ok demoReplicaSets)
        (.ok ()) (.ok ()) (.ok [])).1
      ≠ .error (pausedDeploymentMsg demoPausedDeployment.Name) := by
  constructor
  · rfl
  · exact fun h => Except.noConfusion h

/-- C7 (amended): every non-dry-run invocation of the server-assisted rollback
on a paused workload is rejected with the paused-workload error before any
backend call is issued; the dry-run path skips the paused check. -/
theorem deployment_rollback_rejects_paused
    (d : Deployment) (toRevision : Int)
    (rsFetch : Except String (List ReplicaSet)) (eventsRes rollbackRes : Except String Unit)
    (watchRes : Except String (List WatchItem)) (hp : d.Paused = true) :
    deploymentRollback d toRevision false rsFetch eventsRes rollbackRes watchRes
      = (.error (pausedDeploymentMsg d.Name), []) := by
  simp [deploymentRollback, hp]

/-- C7 witness: the concrete paused deployment, non-dry-run. -/
theorem deployment_rollback_rejects_paused_witness :
    demoPausedDeployment.Paused = true ∧
    deploymentRollback demoPausedDeployment 2 false (.ok demoReplicaSets)
        (.ok ()) (.ok ()) (.ok [])
      = (.error (pausedDeploymentMsg demoPausedDeployment.Name), []) :=
  ⟨rfl, deployment_rollback_rejects_paused demoPausedDeployment 2
    (.ok demoReplicaSets) (.ok ()) (.ok ()) (.ok []) rfl⟩

/-- C8: the completion watcher classifies solely by reason string — the
done sentinel yields the success result and stops, the two skip sentinels
yield the skip result with the event's message embedded and stop, any other
reason is skipped and consumption continues, and a closed stream with no
match yields the empty result. -/
theorem watch_event_classification (e : ApiEvent) (rest : List WatchItem) :
    (e.Reason = RollbackDone →
      watchRollbackEvent (WatchItem.apiEvent e :: rest) = rollbackSuccess) ∧
    ((e.Reason = RollbackRevisionNotFound ∨ e.Reason = RollbackTemplateUnchanged) →
      watchRollbackEvent (WatchItem.apiEvent e :: rest)
        = rollbackSkipped ++ " (" ++ e.Reason ++ ": " ++ e.Message ++ ")") ∧
    ((e.Reason ≠ RollbackDone ∧ e.Reason ≠ RollbackRevisionNotFound ∧
        e.Reason ≠ RollbackTemplateUnchanged) →
      watchRollbackEvent (WatchItem.apiEvent e :: rest) = watchRollbackEvent rest) ∧
    watchRollbackEvent ([] : List WatchItem) = "" := by
  refine ⟨fun hdone => ?_, fun hskip => ?_, fun hother => ?_, rfl⟩
  · have he : isRollbackEvent e = (true, rollbackSuccess) := by
      simp [isRollbackEvent, isRollbackEventLoop, rollbackEventReasons, hdone,
        RollbackDone, RollbackRevisionNotFound, RollbackTemplateUnchanged]
    simp [watchRollbackEvent, he]
  · have he : isRollbackEvent e
        = (true, rollbackSkipped ++ " (" ++ e.Reason ++ ": " ++ e.Message ++ ")") := by
      rcases hskip with hs | hs <;>
        simp [isRollbackEvent, isRollbackEventLoop, rollbackEventReasons, hs,
          RollbackDone, RollbackRevisionNotFound, RollbackTemplateUnchanged]
    simp [watchRollbackEvent, he]
  · obtain ⟨hd, hn, hu⟩ := hother
    have he : isRollbackEvent e = (false, "") := by
      simp [isRollbackEvent, isRollbackEventLoop, rollbackEventReasons, hd, hn, hu]
    simp [watchRollbackEvent, he]

/-- C8 witness: a done event, a template-unchanged event ahead of further
stream items, and a non-sentinel event that is skipped. -/
theorem watch_event_classification_witness :
    (demoDoneEvent.Reason = RollbackDone ∧
      watchRollbackEvent [WatchItem.apiEvent demoDoneEvent] = rollbackSuccess) ∧
    (demoUnchangedEvent.Reason = RollbackTemplateUnchanged ∧
      watchRollbackEvent [WatchItem.apiEvent demoUnchangedEvent, WatchItem.apiEvent demoDoneEvent]
        = rollbackSkipped ++ " (" ++ demoUnchangedEvent.Reason ++ ": "
            ++ demoUnchangedEvent.Message ++ ")") ∧
    watchRollbackEvent [WatchItem.apiEvent demoOtherEvent]
      = watchRollbackEvent ([] : List WatchItem) :=
  ⟨⟨rfl, (watch_event_classification demoDoneEvent []).1 rfl⟩,
   ⟨rfl, (watch_event_classification demoUnchangedEvent
      [WatchItem.apiEvent demoDoneEvent]).2.1 (Or.inr rfl)⟩,
   (watch_event_classification demoOtherEvent []).2.2.1
     ⟨by decide, by decide, by decide⟩⟩

/-- C9: evaluating the StatefulSet history view at a one-snapshot history of
revision 5 with target 0. The source pre-sizes the revisions slice with
`make([]int64, len(history))` and then appends, so the rendered table keeps a
spurious `0` row per history entry ahead of the real revision numbers instead
of listing exactly the revisions. -/
theorem stsViewHistory_keeps_zero_rows :
    stsViewHistory (.ok demoHistoryOne) 0 = .ok "REVISION\n0\n5\n" := by
  rfl

/-- C10: whenever the resolved history is empty, each of the three history
viewers returns `No rollout history found.` without an error, for every
requested revision — including an explicit positive one. -/
theorem viewHistory_empty_history
    (revision : Int) (name : String) (d : Deployment) (rss : List ReplicaSet)
    (ds : DaemonSet) (hinfo : deploymentHistoryInfo rss = []) :
    deploymentViewHistory name (.ok d) (.ok rss) revision
      = .ok "No rollout history found." ∧
    daemonSetViewHistory (.ok (ds, [])) revision = .ok "No rollout history found." ∧
    stsViewHistory (.ok ([] : List ControllerRevision)) revision
      = .ok "No rollout history found." := by
  refine ⟨?_, ?_, ?_⟩
  · simp [deploymentViewHistory, hinfo]
  · simp [daemonSetViewHistory]
  · simp [stsViewHistory]

/-- C10 witness: a replica-set list whose only child has no parseable revision
(so the resolved history is empty) and the explicit positive revision 3. -/
theorem viewHistory_empty_history_witness :
    deploymentHistoryInfo [⟨none, demoTemplateA, []⟩] = [] ∧
    deploymentViewHistory "web" (.ok demoPausedDeployment)
        (.ok [⟨none, demoTemplateA, []⟩]) 3 = .ok "No rollout history found." ∧
    daemonSetViewHistory (.ok (demoDS, [])) 3 = .ok "No rollout history found." ∧
    stsViewHistory (.ok ([] : List ControllerRevision)) 3
      = .ok "No rollout history found." :=
  ⟨by decide,
    (viewHistory_empty_history 3 "web" demoPausedDeployment
      [⟨none, demoTemplateA, []⟩] demoDS (by decide)).1,
    (viewHistory_empty_history 3 "web" demoPausedDeployment
      [⟨none, demoTemplateA, []⟩] demoDS (by decide)).2.1,
    (viewHistory_empty_history 3 "web" demoPausedDeployment
      [⟨none, demoTemplateA, []⟩] demoDS (by decide)).2.2⟩
